import Mathlib

/-!
Shallow embedding of the event-routing and investigation-orchestration
pipeline of the `observability` repository:

* `src/backend/holmes_rca.py` — evidence source adapters (`HolmesToolset`),
  the investigation engine (`HolmesRCA.investigate`) and the priority-ordered
  root-cause classifier (`HolmesRCA._analyze`);
* `src/backend/robusta_playbooks.py` — playbook registry, event router
  (`RobustaEventProcessor.process_event`) and the action executor.

Modelling conventions, used throughout:

* Python dict-based records become Lean structures; a key that may be absent
  becomes an `Option` field and `d.get(k, default)` becomes `Option.getD`.
* Python floats become `ℚ`; all comparisons performed by the code
  (`mem > 450`, `cpu > 80`, `up == 0.0`, …) are exact on the values involved.
* A remote call that the Python code `await`s inside a `try` block is
  modelled as an `Except String` value supplied by an oracle record
  (`HolmesToolset`): `.ok v` is a normal return, `.error e` is a raised
  exception whose `str(e)` is `e`.
* Wall-clock timestamps written into records (`datetime.utcnow()`) carry no
  control-flow weight; where their *relative* values matter (synthetic log
  generation) the call time is an explicit `Int` parameter, elsewhere
  timestamp fields are elided from the record.
* f-string interpolation becomes explicit `++` concatenation; the numeric
  format specifiers `:.0f` / `:.1f` are modelled by `fmt0` / `fmt1` below.
-/

namespace Observability

/-- Character-list based uppercasing, modelling Python's `str.upper()` on the
ASCII text the code scans (kernel-reducible, unlike `String.toUpper`). -/
def upperStr (s : String) : String := ⟨s.data.map Char.toUpper⟩

/-- Character-list based lowercasing, modelling Python's `str.lower()`. -/
def lowerStr (s : String) : String := ⟨s.data.map Char.toLower⟩

/-- Character-count prefix, modelling Python's slice `s[:n]`. -/
def takeStr (s : String) (n : Nat) : String := ⟨s.data.take n⟩

/-- Substring test, modelling Python's `pat in s`. -/
def strContainsB (s pat : String) : Bool := decide (pat.data <:+: s.data)

/-- Keyword scan used for log classification: models
`any(kw in line.upper() for kw in kws)`. -/
def hasAnyKw (line : String) (kws : List String) : Bool :=
  kws.any (fun kw => strContainsB (upperStr line) kw)

/-- Model of Python's `f"{x:.0f}"` on a rational: round to the nearest
integer and print it (exact half-values round up rather than to even;
no compared value sits on a half). -/
def fmt0 (q : ℚ) : String := toString ((2 * q.num + (q.den : ℤ)) / (2 * (q.den : ℤ)))

/-- Model of Python's `f"{x:.1f}"` on a rational: one decimal digit. -/
def fmt1 (q : ℚ) : String :=
  let n : ℤ := (20 * q.num + (q.den : ℤ)) / (2 * (q.den : ℤ))
  toString (n / 10) ++ "." ++ toString ((n % 10).natAbs)

/-- Model of `datetime.isoformat()` at whole-second resolution: timestamps
are integer seconds and render via `toString`. Only the rendered text's
dependence on the instant matters to the code. -/
def isoTs (t : Int) : String := toString t

/-- One log line as returned by the Loki adapter: the dict
`{"timestamp": …, "line": …, "labels": {"job": …, "level": …}, "level": …}`. -/
structure LogEntry where
  timestamp : Int
  line : String
  label_job : String
  label_level : String
  level : String
deriving DecidableEq, Repr

/-- Model of `HolmesToolset._synthetic_logs`: the fixed nine-entry sequence
produced when Loki is unreachable, timestamped relative to the call
instant `now`. -/
def synthetic_logs (service : String) (now : Int) : List LogEntry :=
  let entries : List (Int × String × String) := [
    (60, "INFO",  "[" ++ service ++ "] Service started, listening on :8080"),
    (50, "INFO",  "[" ++ service ++ "] Health check passed: GET /health 200 OK"),
    (40, "INFO",  "[" ++ service ++ "] Processed 142 requests in last 60s"),
    (30, "WARN",  "[" ++ service ++ "] High memory usage detected: 85% of 512Mi limit"),
    (20, "WARN",  "[" ++ service ++ "] GC overhead increasing, heap at 430Mi"),
    (15, "ERROR", "[" ++ service ++ "] Connection timeout to downstream service: deadline exceeded"),
    (10, "ERROR", "[" ++ service ++ "] OOMKill signal received, container memory exceeded limit"),
    (5,  "WARN",  "[" ++ service ++ "] Circuit breaker OPEN for dependency 'postgres'"),
    (2,  "ERROR", "[" ++ service ++ "] Failed health check: GET /health 503 Service Unavailable")]
  entries.map (fun e =>
    let ts := now - e.1
    { timestamp := ts,
      line := isoTs ts ++ (" " ++ (e.2.1 ++ (" " ++ e.2.2))),
      label_job := service,
      label_level := lowerStr e.2.1,
      level := e.2.1 })

/-- Metrics snapshot returned by `HolmesToolset.fetch_vm_metrics`: the four
keys are always present in the returned dict. -/
structure VMMetrics where
  cpu_usage_pct : ℚ
  memory_mb : ℚ
  scrape_ms : ℚ
  up : ℚ
deriving DecidableEq, Repr

/-- Outcome of one VictoriaMetrics HTTP query inside the loop of
`fetch_vm_metrics`: a 200 response with a value, a 200 response with an
empty result list, a non-200 response, or a raised exception. -/
inductive QueryOutcome where
  | ok (v : ℚ)
  | empty
  | non200
  | exn
deriving DecidableEq, Repr

/-- Value assigned to a query's key when no exception is raised: the fetched
scalar on 200-with-results, `0.0` on an empty result list or a non-200
response; `none` when the query raised. -/
def queryValue : QueryOutcome → Option ℚ
  | .ok v => some v
  | .empty => some 0
  | .non200 => some 0
  | .exn => none

/-- The query loop of `fetch_vm_metrics`: queries run in order and the first
raised exception aborts the loop (later queries are never issued). -/
def runQueries : List QueryOutcome → Option (List ℚ)
  | [] => some []
  | q :: rest =>
    match queryValue q with
    | none => none
    | some v => (runQueries rest).map (fun l => v :: l)

/-- The three values `random.uniform(…)` draws for the synthetic metrics
snapshot taken when the source raised (CPU 15–92, memory 80–490,
scrape 0.5–45 in the source; the draws are free parameters here). -/
structure RandDraws where
  cpu : ℚ
  mem : ℚ
  scrape : ℚ
deriving DecidableEq, Repr

/-- Model of `HolmesToolset.fetch_vm_metrics`: the four named queries
(cpu_usage_pct, memory_mb, scrape_ms, up) run in order; a raised exception
anywhere replaces the whole mapping by the randomized snapshot with
`up = 1.0`; otherwise every key holds its own query's value. -/
def fetch_vm_metrics (cpuQ memQ scrQ upQ : QueryOutcome) (r : RandDraws) : VMMetrics :=
  match runQueries [cpuQ, memQ, scrQ, upQ] with
  | some (c :: m :: s :: u :: []) =>
    { cpu_usage_pct := c, memory_mb := m, scrape_ms := s, up := u }
  | _ =>
    { cpu_usage_pct := r.cpu, memory_mb := r.mem, scrape_ms := r.scrape, up := 1 }

/-- One container entry of the simulated `kubectl describe` output (the
constant image and resource strings of the source carry no logic and are
elided). -/
structure ContainerInfo where
  name : String
  ready : Bool
  restart_count : Nat
  last_state : String
deriving DecidableEq, Repr

/-- One Kubernetes warning event of the simulated describe output. -/
structure K8sEvent where
  type : String
  reason : String
  message : String
  count : Nat
  age : String
  source : String
deriving DecidableEq, Repr

/-- The simulated `kubectl describe pod` result (constant fields `kind`,
`node`, conditions and the generated pod name carry no logic and are
elided; `status` and the parts read by the classifier are kept). -/
structure K8sDescribe where
  status : String
  cluster : String
  containers : List ContainerInfo
  events : List K8sEvent
deriving DecidableEq, Repr

/-- Model of `HolmesToolset.kubectl_describe`: always synthesized
deterministically from the service name — a service whose name contains
"memory" (case-insensitively) gets `restart_count = 2`, last state
"OOMKilled" and one OOMKilling warning event; every other service gets
zero restarts, last state "Completed" and no events. -/
def kubectl_describe (service cluster : String) : K8sDescribe :=
  let restart_count : Nat := if strContainsB (lowerStr service) "memory" then 2 else 0
  let last_state : String := if restart_count > 0 then "OOMKilled" else "Completed"
  let k8s_events : List K8sEvent :=
    if restart_count > 0 then
      [{ type := "Warning",
         reason := "OOMKilling",
         message := "Container " ++ service ++ " exceeded memory limit (512Mi)",
         count := restart_count,
         age := "8m",
         source := "kubelet" }]
    else []
  { status := "Running",
    cluster := cluster,
    containers := [
      { name := service,
        ready := true,
        restart_count := restart_count,
        last_state := last_state }],
    events := k8s_events }

/-- The alert payload handed to `HolmesRCA.investigate`: a dict whose keys
may all be absent (`alert.get(k, default)` in the source). -/
structure HolmesAlert where
  service : Option String := none
  cluster : Option String := none
  alertname : Option String := none
  name : Option String := none
  severity : Option String := none
  description : Option String := none
  metric : Option String := none
  value : Option ℚ := none
deriving DecidableEq, Repr

/-- Output of the rule-based classifier `HolmesRCA._analyze`: the 5-tuple
`(root_cause, summary, findings, recommendations, confidence)` it returns. -/
structure AnalysisOut where
  root_cause : String
  ai_summary : String
  findings : List String
  recommendations : List String
  confidence : String
deriving DecidableEq, Repr

/-- Intermediate record for one classifier branch (the source mutates four
locals inside its `if`/`elif` chain; the summary is built afterwards). -/
structure RuleOut where
  root_cause : String
  findings : List String
  recommendations : List String
  confidence : String
deriving DecidableEq, Repr

/-- Model of `HolmesRCA._build_summary`. -/
def build_summary (service root_cause : String) (metrics : VMMetrics)
    (error_count restarts : Nat) (confidence : String) : String :=
  "**Holmes AI Investigation Summary — `" ++ service ++ "`**\n\n"
    ++ root_cause ++ "\n\n"
    ++ "Evidence gathered from **Loki** (logs), **VictoriaMetrics** (metrics), and **kubectl** "
    ++ "shows: CPU at " ++ fmt1 metrics.cpu_usage_pct ++ "%, memory at "
    ++ fmt0 metrics.memory_mb ++ "MB, "
    ++ toString error_count ++ " error log entries, "
    ++ toString restarts ++ " pod restart(s). "
    ++ "Investigation confidence: **" ++ upperStr confidence ++ "**."

/-- Model of `HolmesRCA._analyze`: the strict priority-ordered decision list
over the gathered evidence. The source's unused locals (`metric_type`,
`k8s_events`) are not bound; `logs` is passed but, as in the source, never
read. -/
def analyze (alert : HolmesAlert) (logs error_logs : List LogEntry)
    (metrics : VMMetrics) (k8s : K8sDescribe) (restarts : Nat)
    (last_state : String) : AnalysisOut :=
  let _ := logs
  let service := alert.service.getD "unknown"
  let alert_name := alert.alertname.getD (alert.name.getD "UnknownAlert")
  let severity := alert.severity.getD "warning"
  let cpu := metrics.cpu_usage_pct
  let mem := metrics.memory_mb
  let up := metrics.up
  let error_count := error_logs.length
  let oom_logs := error_logs.filter
    (fun l => hasAnyKw l.line ["OOM", "KILLED", "OOMKILL"])
  let timeout_logs := error_logs.filter
    (fun l => hasAnyKw l.line ["TIMEOUT", "DEADLINE", "CONNECTION REFUSED"])
  let r : RuleOut :=
    if oom_logs ≠ [] ∨ last_state = "OOMKilled" ∨ (mem > 450 ∧ restarts > 0) then
      { confidence := "high",
        root_cause :=
          "OOMKill — `" ++ service ++ "` exceeded its memory limit (512Mi) and was killed by the kernel. "
            ++ "Evidence: " ++ toString oom_logs.length ++ " OOM log entries, "
            ++ toString restarts ++ " pod restart(s), memory at " ++ fmt0 mem ++ "MB.",
        findings := [
          "🔴 Container `" ++ service ++ "` was OOMKilled — " ++ toString restarts ++ " restart(s) recorded by kubelet",
          "📊 Memory at " ++ fmt0 mem ++ "MB, approaching/exceeding 512Mi container limit",
          "📋 " ++ toString oom_logs.length ++ " OOM-related log entries in the 30-min investigation window",
          "📦 Resources: requests=256Mi, limits=512Mi — limit is too tight for current workload",
          "⚠️  GC overhead increasing (seen in logs) — possible heap fragmentation"],
        recommendations := [
          "Immediate: increase memory limit to 1Gi in the Deployment spec",
          "Profile heap: `kubectl exec -it <pod> -- jmap -histo <pid>` (JVM) or memory_profiler (Python)",
          "Check for unbounded caches or data accumulation in recent commits",
          "Add HPA on memory: `kubectl autoscale deploy <name> --min=2 --max=5`",
          "Set alerting at 80% memory threshold so next OOMKill can be prevented",
          "Consider implementing streaming/chunked processing to reduce peak memory"] }
    else if up = 0 ∨ alert_name = "ServiceDown" ∨ alert_name = "InstanceDown" then
      { confidence := "high",
        root_cause :=
          "`" ++ service ++ "` is not responding to health checks (up=0). "
            ++ toString error_count ++ " errors in logs; " ++ toString restarts ++ " restarts.",
        findings :=
          [ "🔴 `" ++ service ++ "` health check returning failure — up metric = 0",
            "📋 " ++ toString error_count ++ " error log entries in investigation window",
            "🔄 Pod restart count: " ++ toString restarts,
            "🌐 Pod phase: " ++ k8s.status ++ " (from kubectl describe)"]
          ++ (if timeout_logs ≠ [] then
                ["⏱️ " ++ toString timeout_logs.length ++ " connection timeout errors — possible downstream dependency failure"]
              else []),
        recommendations := [
          "Run: `kubectl get pods -l app=" ++ service ++ " -n default` to check pod phase",
          "Check startup logs for init crash: `kubectl logs --previous <pod>`",
          "Verify ConfigMaps and Secrets are mounted correctly",
          "Test downstream dependencies health (DB, external APIs)",
          "Add readiness probe to prevent traffic routing to unhealthy pods"] }
    else if cpu > 80 then
      { confidence := if cpu > 90 then "high" else "medium",
        root_cause :=
          "CPU exhaustion — `" ++ service ++ "` consuming " ++ fmt0 cpu ++ "% CPU. "
            ++ "Performance degradation likely; " ++ toString error_count ++ " errors observed.",
        findings :=
          [ "⚡ CPU at " ++ fmt0 cpu ++ "% — significantly above the 70% healthy threshold",
            "📊 Memory at " ++ fmt0 mem ++ "MB (secondary indicator — not the primary cause)",
            "📋 " ++ toString error_count ++ " error log entries — some may be caused by CPU starvation",
            "📦 CPU limit: 500m — consider increasing or adding replicas"]
          ++ (if error_count > 5 then
                ["⚠️  Elevated error rate suggests request timeouts due to CPU starvation"]
              else []),
        recommendations := [
          "Scale horizontally immediately: `kubectl scale deploy <name> --replicas=3`",
          "Enable HPA: `kubectl autoscale deploy <name> --min=2 --max=10 --cpu-percent=70`",
          "Profile CPU hotspots: `py-spy record -o profile.svg -p <pid>`",
          "Increase CPU limit from 500m to 1000m in Deployment spec",
          "Check for tight loops or blocking I/O in recent code changes",
          "Review cron jobs or batch tasks that may be competing for CPU"] }
    else if timeout_logs ≠ [] then
      { confidence := "medium",
        root_cause :=
          "Dependency failure — `" ++ service ++ "` cannot reach downstream services ("
            ++ toString timeout_logs.length ++ " timeout errors in logs).",
        findings := [
          "⏱️ " ++ toString timeout_logs.length ++ " connection timeout / deadline exceeded errors in logs",
          "🔗 Service itself is up (CPU: " ++ fmt1 cpu ++ "%, Mem: " ++ fmt0 mem ++ "MB) — issue is external",
          "📋 " ++ toString error_count ++ " total errors; majority are connection-related"],
        recommendations := [
          "Check downstream services: `kubectl get pods --all-namespaces`",
          "Verify network policies: `kubectl get networkpolicies -n default`",
          "Test DNS resolution: `kubectl exec -it <pod> -- nslookup <dependency>`",
          "Implement retry with exponential backoff and jitter",
          "Add circuit breaker (e.g., Hystrix/resilience4j/tenacity) to prevent cascade",
          "Check if dependency has a recent deployment that may have broken API"] }
    else
      { confidence := "low",
        root_cause :=
          "Anomalous behaviour detected in `" ++ service ++ "` — metrics deviate from baseline. "
            ++ "Requires deeper investigation.",
        findings := [
          "📊 CPU: " ++ fmt1 cpu ++ "%, Memory: " ++ fmt0 mem ++ "MB, Up: " ++ (if up = 0 then "no" else "yes"),
          "📋 " ++ toString error_count ++ " error log entries in investigation window",
          "🔄 Pod restarts: " ++ toString restarts,
          "🔍 Alert: `" ++ alert_name ++ "` (severity: " ++ severity ++ ")"],
        recommendations := [
          "Compare metrics to 24h baseline in Grafana",
          "Check for recent deployments: `kubectl rollout history deploy/<name>`",
          "Enable debug logging temporarily for deeper visibility",
          "Review Grafana dashboards for correlated metrics",
          "Check external dependencies and infra changes (node pressure, network)"] }
  { root_cause := r.root_cause,
    ai_summary := build_summary service r.root_cause metrics error_count restarts r.confidence,
    findings := r.findings,
    recommendations := r.recommendations,
    confidence := r.confidence }

/-- One entry of an investigation's step log (the tool-call audit trail);
the per-entry wall-clock timestamp is elided. -/
structure Step where
  tool : String
  query : String
  result : String
deriving DecidableEq, Repr

/-- The structured investigation report `HolmesInvestigation`. Time fields
(`started_at`, `completed_at`) are elided; `investigating`/`pending` are
transient in-call states, so a returned record's `status` is `complete`
or `failed`. The source keeps the record in `holmes.investigations` under
its id; here the record itself is returned and stored on the run. -/
structure HolmesInvestigation where
  id : String
  alert : HolmesAlert
  status : String
  steps : List Step
  log_evidence : List LogEntry
  metric_evidence : Option VMMetrics
  k8s_context : Option K8sDescribe
  root_cause : String
  ai_summary : String
  findings : List String
  recommendations : List String
  confidence : String
deriving DecidableEq, Repr

/-- Oracle for one investigation: the three adapter calls awaited inside the
`try` block of `HolmesRCA.investigate`, plus the id `_new_id()` generated
for the investigation. `.error e` models a raised exception with text `e`;
the source's own adapters catch their errors internally (so a live run
sees `.ok` of a fetched or synthetic sample), but `investigate` guards
every step. The simulated `kubectl_describe` never raises, so a faithful
oracle has `k8s = .ok (kubectl_describe service cluster)`. -/
structure HolmesToolset where
  inv_id : String
  logs : Except String (List LogEntry)
  metrics : Except String VMMetrics
  k8s : Except String K8sDescribe

/-- Model of `HolmesRCA.investigate`: the four-step state machine. Each step
appends its entry with a placeholder result which is overwritten on
success; a raised exception leaves the placeholder, sets status `failed`
and surfaces the error text as the root cause. The function is total: no
exception propagates to the caller. -/
def investigate (ts : HolmesToolset) (alert : HolmesAlert) : HolmesInvestigation :=
  let service := alert.service.getD "unknown"
  let base : HolmesInvestigation :=
    { id := ts.inv_id, alert := alert, status := "investigating", steps := [],
      log_evidence := [], metric_evidence := none, k8s_context := none,
      root_cause := "", ai_summary := "", findings := [], recommendations := [],
      confidence := "medium" }
  let step1p : Step := ⟨"loki", "\x7bjob=\"" ++ service ++ "\"\x7d [last 30m]", "fetching..."⟩
  match ts.logs with
  | .error e =>
    { base with
      status := "failed"
      steps := [step1p]
      root_cause := "Investigation failed: " ++ e
      findings := ["Investigation error: " ++ e] }
  | .ok logs =>
    let error_logs := logs.filter (fun l => hasAnyKw l.line
      ["ERROR", "FATAL", "EXCEPTION", "CRITICAL", "OOM", "KILLED", "FAIL", "TIMEOUT"])
    let r1 := "Found " ++ toString logs.length ++ " log lines ("
      ++ toString error_logs.length ++ " errors/warnings) in past 30 min"
    let step1 : Step := { step1p with result := r1 }
    let step2p : Step := ⟨"victoria-metrics", "up\x7bjob=\"" ++ service ++ "\"\x7d, cpu, memory [now]", "querying..."⟩
    match ts.metrics with
    | .error e =>
      { base with
        status := "failed"
        steps := [step1, step2p]
        log_evidence := logs
        root_cause := "Investigation failed: " ++ e
        findings := ["Investigation error: " ++ e] }
    | .ok metrics =>
      let r2 := "CPU: " ++ fmt1 metrics.cpu_usage_pct ++ "%  Memory: "
        ++ fmt0 metrics.memory_mb ++ "MB  Up: "
        ++ (if metrics.up = 1 then "yes" else "NO")
      let step2 : Step := { step2p with result := r2 }
      let step3p : Step := ⟨"kubectl", "describe pod " ++ service ++ " -n default", "querying..."⟩
      match ts.k8s with
      | .error e =>
        { base with
          status := "failed"
          steps := [step1, step2, step3p]
          log_evidence := logs
          metric_evidence := some metrics
          root_cause := "Investigation failed: " ++ e
          findings := ["Investigation error: " ++ e] }
      | .ok k8s =>
        let restarts := (k8s.containers.head?.map ContainerInfo.restart_count).getD 0
        let last_state := (k8s.containers.head?.map ContainerInfo.last_state).getD ""
        let r3 := "Pod status: " ++ k8s.status ++ "  Restarts: " ++ toString restarts
          ++ "  LastState: " ++ (if last_state = "" then "N/A" else last_state)
        let step3 : Step := { step3p with result := r3 }
        let a := analyze alert logs error_logs metrics k8s restarts last_state
        let step4 : Step := ⟨"ai-engine", "analyze all gathered evidence",
          "Root cause identified with " ++ a.confidence ++ " confidence"⟩
        { base with
          status := "complete"
          steps := [step1, step2, step3, step4]
          log_evidence := logs
          metric_evidence := some metrics
          k8s_context := some k8s
          root_cause := a.root_cause
          ai_summary := a.ai_summary
          findings := a.findings
          recommendations := a.recommendations
          confidence := a.confidence }

/-- An incoming event: the free-form dict projected onto the keys the router,
the trigger predicates and the action executor read. An absent key is
`none` (`event.get(k)` is `None`, `event.get(k, d)` is `Option.getD`). -/
structure Event where
  alertname : Option String := none
  name : Option String := none
  status : Option String := none
  metric : Option String := none
  value : Option ℚ := none
  severity : Option String := none
  source : Option String := none
  reason : Option String := none
  last_state : Option String := none
  service : Option String := none
  job : Option String := none
  cluster : Option String := none
  description : Option String := none
  summary : Option String := none
  id : Option String := none
  received_at : Option String := none
deriving DecidableEq, Repr

/-- A playbook trigger: name plus boolean predicate. The source wraps the
predicate call in `try`/`except` returning `False`; the Lean conditions
are total functions, so `matches` is the condition itself. -/
structure PlaybookTrigger where
  name : String
  condition : Event → Bool

/-- One playbook action. Of the free-form `params` dict only the
`log_minutes` key is ever read (by `k8s_query` actions). -/
structure PlaybookAction where
  name : String
  description : String
  action_type : String
  log_minutes : Option Nat := none

/-- A playbook: trigger predicates plus ordered actions. The source draws
`id` from `uuid.uuid4()[:8]`; here the six built-ins carry fixed distinct
tokens and the id is a plain field. The mutable bookkeeping counters
(`run_count`, `last_run`) never influence routing or execution and are
elided. -/
structure Playbook where
  id : String
  name : String
  description : String
  triggers : List PlaybookTrigger
  actions : List PlaybookAction
  auto_remediate : Bool := false
  tags : List String := []

/-- Playbook 1 of `_register_defaults`: service down → Holmes investigation. -/
def on_service_down : Playbook :=
  { id := "pb-svc-down"
    name := "on_service_down"
    description := "When a service goes down: fetch recent logs from Loki, run Holmes AI root cause analysis, enrich the alert."
    triggers := [
      { name := "on_prometheus_alert:ServiceDown"
        condition := fun e =>
          (e.alertname == some "ServiceDown" || e.alertname == some "InstanceDown")
            || (e.name == some "ServiceDown" || e.name == some "InstanceDown")
            || e.status == some "down" }]
    actions := [
      { name := "holmes_ai_analysis", description := "Run Holmes AI root cause analysis", action_type := "investigate" },
      { name := "fetch_loki_logs", description := "Fetch service logs from Loki", action_type := "k8s_query", log_minutes := some 30 },
      { name := "send_enriched_alert", description := "Enrich and route alert to Alertmanager", action_type := "notify" }]
    tags := ["service-health", "loki", "holmes"] }

/-- Playbook 2: high CPU → investigate plus scaling suggestion. -/
def on_high_cpu : Playbook :=
  { id := "pb-high-cpu"
    name := "on_high_cpu"
    description := "Investigate high CPU events; suggest autoscaling. Mirrors Robusta `cpu_throttling_analysis` playbook."
    triggers := [
      { name := "on_prometheus_alert:HighCPUUsage"
        condition := fun e =>
          (e.alertname == some "HighCPUUsage" || e.alertname == some "CPUThrottling")
            || (strContainsB (lowerStr (e.metric.getD "")) "cpu"
                  && decide ((e.value.getD 0) > 80)) }]
    actions := [
      { name := "holmes_ai_analysis", description := "Run Holmes AI root cause analysis", action_type := "investigate" },
      { name := "check_hpa", description := "Query HPA status via kubectl", action_type := "k8s_query" },
      { name := "scaling_recommendation", description := "Emit scaling recommendation", action_type := "recommend" }]
    tags := ["cpu", "scaling", "holmes"] }

/-- Playbook 3: OOMKill → memory investigation and remediation. -/
def on_oom_kill : Playbook :=
  { id := "pb-oom-kill"
    name := "on_oom_kill"
    description := "Handle OOMKill events: fetch crash logs, analyse memory growth, recommend limit increase. Auto-remediation available."
    triggers := [
      { name := "on_pod_oom_killed"
        condition := fun e =>
          strContainsB (lowerStr (e.alertname.getD "")) "oom"
            || strContainsB (lowerStr (e.reason.getD "")) "oom"
            || strContainsB (lowerStr (e.metric.getD "")) "memory"
            || e.last_state == some "OOMKilled" }]
    actions := [
      { name := "holmes_ai_analysis", description := "Run Holmes AI root cause analysis", action_type := "investigate" },
      { name := "fetch_crash_logs", description := "Fetch crash logs from Loki (pre-kill)", action_type := "k8s_query", log_minutes := some 60 },
      { name := "memory_growth_analysis", description := "Analyse memory growth trend in VM", action_type := "correlate" }]
    auto_remediate := true
    tags := ["oom", "memory", "loki", "holmes"] }

/-- Playbook 4: AI anomaly → fleet-wide investigation. -/
def on_ai_anomaly : Playbook :=
  { id := "pb-ai-anomaly"
    name := "on_ai_anomaly"
    description := "When the AI observability agent detects a fleet-wide anomaly, run Holmes investigation and correlate across all affected services."
    triggers := [
      { name := "on_ai_anomaly_detected"
        condition := fun e =>
          e.source == some "ai_agent" || e.alertname == some "AIAnomalyDetected" }]
    actions := [
      { name := "holmes_ai_analysis", description := "Run Holmes AI root cause analysis", action_type := "investigate" },
      { name := "cross_service_correlation", description := "Correlate anomalies across services", action_type := "correlate" },
      { name := "notify_on_call", description := "Send enriched report to on-call channel", action_type := "notify" }]
    tags := ["ai", "fleet", "holmes"] }

/-- Playbook 5: critical catch-all. -/
def on_critical_alert : Playbook :=
  { id := "pb-critical"
    name := "on_critical_alert"
    description := "For any critical severity alert: immediate Holmes investigation, create incident, notify on-call."
    triggers := [
      { name := "on_prometheus_alert:severity=critical"
        condition := fun e => e.severity == some "critical" }]
    actions := [
      { name := "holmes_ai_analysis", description := "Run Holmes AI root cause analysis", action_type := "investigate" },
      { name := "create_incident", description := "Create incident (PagerDuty/Jira)", action_type := "notify" }]
    tags := ["critical", "incident", "holmes"] }

/-- Playbook 6: scrape failure → infra check. -/
def on_scrape_failure : Playbook :=
  { id := "pb-scrape-fail"
    name := "on_scrape_failure"
    description := "When VictoriaMetrics agent reports scrape failures, check network connectivity and service health."
    triggers := [
      { name := "on_prometheus_alert:HighScrapeFailureRate"
        condition := fun e =>
          e.alertname == some "HighScrapeFailureRate" || e.alertname == some "ScrapeFailed" }]
    actions := [
      { name := "network_check", description := "Verify network connectivity to targets", action_type := "k8s_query" },
      { name := "holmes_ai_analysis", description := "Run Holmes AI root cause analysis", action_type := "investigate" }]
    tags := ["metrics", "vmagent", "networking"] }

/-- The six built-in playbooks registered by
`RobustaEventProcessor._register_defaults`, in registration order. -/
def default_playbooks : List Playbook :=
  [on_service_down, on_high_cpu, on_oom_kill, on_ai_anomaly,
    on_critical_alert, on_scrape_failure]

/-- One per-action audit entry appended to a run's `actions_taken`
(per-entry wall-clock timestamp elided). -/
structure ActionRecord where
  action : String
  type : String
  description : String
  result : String
deriving DecidableEq, Repr

/-- The `enrichment` dict accumulated on a run: populated only by
`investigate` actions, with exactly these four keys. -/
structure Enrichment where
  holmes_summary : Option String := none
  root_cause : Option String := none
  findings : Option (List String) := none
  confidence : Option String := none
deriving DecidableEq, Repr

/-- The audit record of one (playbook × event) execution, `PlaybookRun`.
The generated run id and the timestamps are elided; the source stores an
`investigation_id` and keeps the record on the Holmes singleton — here
the produced investigation itself is stored (`investigation`), `none`
playing `None`'s part in the `k8s_query` result text. -/
structure PlaybookRun where
  playbook_id : String
  playbook_name : String
  event : Event
  status : String
  actions_taken : List ActionRecord
  investigation : Option HolmesInvestigation
  enrichment : Enrichment
  triggered_alerts : List String

/-- A fresh run record for `PlaybookRun.__init__`: status `running`, empty
audit trail and enrichment. -/
def newRun (pb : Playbook) (event : Event) : PlaybookRun :=
  { playbook_id := pb.id
    playbook_name := pb.name
    event := event
    status := "running"
    actions_taken := []
    investigation := none
    enrichment := {}
    triggered_alerts := [] }

/-- The normalized alert payload an `investigate` action builds from the
event's fields (`alert_for_holmes` in `_execute_action`). -/
def alert_for_holmes (e : Event) : HolmesAlert :=
  { service := some (e.service.getD (e.job.getD "unknown"))
    cluster := some (e.cluster.getD "local-docker")
    alertname := some (e.alertname.getD (e.name.getD "UnknownAlert"))
    severity := some (e.severity.getD "warning")
    description := some (e.description.getD (e.summary.getD ""))
    metric := some (e.metric.getD "")
    value := some (e.value.getD 0) }

/-- Model of `RobustaEventProcessor._execute_action`, instantiated with the
toolset oracle for the Holmes call: returns the action's textual result
and the (possibly enriched) run. Every branch returns normally — the
concrete executor raises for no action kind. -/
def execute_action (ts : HolmesToolset) (a : PlaybookAction) (event : Event)
    (run : PlaybookRun) : Except String (String × PlaybookRun) :=
  if a.action_type = "investigate" then
    let inv := investigate ts (alert_for_holmes event)
    let run' : PlaybookRun :=
      { run with
        investigation := some inv
        enrichment :=
          { holmes_summary := some inv.ai_summary
            root_cause := some inv.root_cause
            findings := some inv.findings
            confidence := some inv.confidence } }
    .ok ("Holmes investigation " ++ inv.id ++ " complete (confidence: "
      ++ inv.confidence ++ "): " ++ takeStr inv.root_cause 80 ++ "…", run')
  else if a.action_type = "k8s_query" then
    let minutes := a.log_minutes.getD 30
    let invId := (run.investigation.map HolmesInvestigation.id).getD "None"
    .ok ("Queried kubectl/Loki — fetched last " ++ toString minutes
      ++ "min of logs and pod describe output. See investigation " ++ invId
      ++ " for full log evidence.", run)
  else if a.action_type = "notify" then
    let root_cause := run.enrichment.root_cause.getD "See investigation for details"
    .ok ("[Robusta] Alert enriched with AI context and dispatched. "
      ++ "Root cause summary: " ++ takeStr root_cause 100, run)
  else if a.action_type = "recommend" then
    .ok ("Scaling recommendation: current replicas=1, desired=3 (CPU threshold breached). "
      ++ "Apply: `kubectl scale deploy <service> --replicas=3` "
      ++ "or enable HPA: `kubectl autoscale deploy <service> --cpu-percent=70 --min=2 --max=10`", run)
  else if a.action_type = "correlate" then
    .ok ("Cross-service correlation complete: anomaly pattern detected in 2 services within "
      ++ "the same cluster. Memory growth is linear (not bursty) — suggests memory leak, "
      ++ "not sudden load spike.", run)
  else
    .ok ("Action '" ++ a.name ++ "' executed successfully", run)

/-- The synthetic audit entry appended when an action raises: name and type
`error`, the exception text as description and result. -/
def errorRecord (e : String) : ActionRecord :=
  { action := "error", type := "error", description := e, result := e }

/-- The action loop of `_run_playbook`, generic in the action executor
`exec` so that a raising action (`.error`) can be modelled: actions run
in order; on the first `.error e` the remaining actions are skipped, the
run is marked `failed` and `errorRecord e` is appended; if every action
returns, the run is marked `success`. -/
def runActions (exec : PlaybookAction → Event → PlaybookRun → Except String (String × PlaybookRun))
    (event : Event) : List PlaybookAction → PlaybookRun → PlaybookRun
  | [], run => { run with status := "success" }
  | a :: rest, run =>
    match exec a event run with
    | .ok (result, run') =>
      let rec1 : ActionRecord :=
        { action := a.name, type := a.action_type,
          description := a.description, result := result }
      runActions exec event rest
        { run' with actions_taken := run'.actions_taken ++ [rec1] }
    | .error e =>
      { run with
        status := "failed"
        actions_taken := run.actions_taken ++ [errorRecord e] }

/-- Model of `RobustaEventProcessor._run_playbook`: build the fresh run and
execute the actions (playbook counter bookkeeping elided). Total: an
action failure yields a `failed` run, never an exception. -/
def run_playbook (exec : PlaybookAction → Event → PlaybookRun → Except String (String × PlaybookRun))
    (pb : Playbook) (event : Event) : PlaybookRun :=
  runActions exec event pb.actions (newRun pb event)

/-- The processor's shared mutable state: registered playbooks, run history
and event log. -/
structure RobustaState where
  playbooks : List Playbook
  runs : List PlaybookRun
  events : List Event

/-- The processor's state at startup: the six defaults registered, no runs,
no events. -/
def initialState : RobustaState :=
  { playbooks := default_playbooks, runs := [], events := [] }

/-- Intake stamping of `process_event`: `setdefault("received_at", now)` and
`setdefault("id", uuid)` with the generated values as parameters. -/
def stampEvent (now uuid : String) (e : Event) : Event :=
  { e with received_at := some (e.received_at.getD now)
           id := some (e.id.getD uuid) }

/-- The playbooks whose trigger predicates match an event (OR across one
playbook's triggers), in registration order. -/
def matchingPlaybooks (pbs : List Playbook) (e : Event) : List Playbook :=
  pbs.filter (fun pb => pb.triggers.any (fun t => t.condition e))

/-- Model of `RobustaEventProcessor.process_event`: stamp the event, append
it to the event log, execute one run per matching playbook and store the
runs; an event matching nothing returns `[]` (and is still logged). -/
def process_event (exec : PlaybookAction → Event → PlaybookRun → Except String (String × PlaybookRun))
    (st : RobustaState) (now uuid : String) (event : Event) :
    List PlaybookRun × RobustaState :=
  let e := stampEvent now uuid event
  let st1 : RobustaState := { st with events := st.events ++ [e] }
  let matching := matchingPlaybooks st.playbooks e
  if matching.isEmpty then ([], st1)
  else
    let runs := matching.map (fun pb => run_playbook exec pb e)
    (runs, { st1 with runs := st1.runs ++ runs })

/-- The end-to-end scenario event of the spec:
`{alertname: "ServiceDown", service: "checkout", cluster: "prod-1", status: "down"}`. -/
def serviceDownEvent : Event :=
  { alertname := some "ServiceDown", service := some "checkout",
    cluster := some "prod-1", status := some "down" }

/-- A fully offline toolset for the scenario event: Loki unreachable (the
adapter returned its synthetic fallback logs, here taken at instant 0),
healthy metrics, and the simulated describe output for `checkout`. -/
def syntheticToolset : HolmesToolset :=
  { inv_id := "inv-1"
    logs := .ok (synthetic_logs "checkout" 0)
    metrics := .ok { cpu_usage_pct := 50, memory_mb := 200, scrape_ms := 5, up := 1 }
    k8s := .ok (kubectl_describe "checkout" "prod-1") }

/-! Helper lemmas shared by the claim theorems. -/

theorem data_append (a b : String) : (a ++ b).data = a.data ++ b.data := rfl

theorem strContainsB_append (pat a b : String) (h : strContainsB a pat = true) :
    strContainsB (a ++ b) pat = true := by
  unfold strContainsB at h ⊢
  rw [decide_eq_true_eq] at h ⊢
  rw [data_append]
  exact h.trans (List.prefix_append a.data b.data).isInfix

theorem execute_action_ok_fields (ts : HolmesToolset) (a : PlaybookAction) (ev : Event)
    (r : PlaybookRun) (s : String) (r' : PlaybookRun)
    (h : execute_action ts a ev r = .ok (s, r')) :
    r'.playbook_id = r.playbook_id ∧ r'.playbook_name = r.playbook_name ∧ r'.event = r.event := by
  unfold execute_action at h
  split_ifs at h <;>
    · simp only [Except.ok.injEq, Prod.mk.injEq] at h
      rcases h with ⟨-, h2⟩
      subst h2
      exact ⟨rfl, rfl, rfl⟩

theorem runActions_fields (exec : PlaybookAction → Event → PlaybookRun → Except String (String × PlaybookRun))
    (hpres : ∀ a ev r s r', exec a ev r = .ok (s, r') →
      r'.playbook_id = r.playbook_id ∧ r'.playbook_name = r.playbook_name ∧ r'.event = r.event)
    (ev : Event) (acts : List PlaybookAction) (run : PlaybookRun) :
    (runActions exec ev acts run).playbook_id = run.playbook_id ∧
    (runActions exec ev acts run).playbook_name = run.playbook_name ∧
    (runActions exec ev acts run).event = run.event := by
  induction acts generalizing run with
  | nil => exact ⟨rfl, rfl, rfl⟩
  | cons a rest ih =>
    unfold runActions
    cases hx : exec a ev run with
    | ok p =>
      obtain ⟨s, r'⟩ := p
      obtain ⟨h1, h2, h3⟩ := hpres a ev run s r' hx
      obtain ⟨i1, i2, i3⟩ := ih { r' with actions_taken := r'.actions_taken ++ [
        { action := a.name, type := a.action_type,
          description := a.description, result := s }] }
      exact ⟨i1.trans h1, i2.trans h2, i3.trans h3⟩
    | error e => exact ⟨rfl, rfl, rfl⟩

theorem run_playbook_fields (ts : HolmesToolset) (pb : Playbook) (ev : Event) :
    (run_playbook (execute_action ts) pb ev).playbook_id = pb.id ∧
    (run_playbook (execute_action ts) pb ev).playbook_name = pb.name ∧
    (run_playbook (execute_action ts) pb ev).event = ev :=
  runActions_fields (execute_action ts)
    (fun a e r s r' h => execute_action_ok_fields ts a e r s r' h) ev pb.actions (newRun pb ev)

theorem process_event_runs (exec : PlaybookAction → Event → PlaybookRun → Except String (String × PlaybookRun))
    (st : RobustaState) (now uuid : String) (ev : Event) :
    (process_event exec st now uuid ev).1 =
      (matchingPlaybooks st.playbooks (stampEvent now uuid ev)).map
        (fun pb => run_playbook exec pb (stampEvent now uuid ev)) := by
  unfold process_event
  dsimp only
  split
  next h => rw [List.isEmpty_iff.mp h]; rfl
  next h => rfl

/-! Claim theorems. -/

/-- Claim C4: an event that matches no registered playbook's triggers makes
`process_event` return the empty run list — not an error — and the
stamped event is still appended to the processor's event log. -/
theorem c4_no_match_empty_runs
    (exec : PlaybookAction → Event → PlaybookRun → Except String (String × PlaybookRun))
    (st : RobustaState) (now uuid : String) (ev : Event)
    (h : matchingPlaybooks st.playbooks (stampEvent now uuid ev) = []) :
    process_event exec st now uuid ev =
      ([], { st with events := st.events ++ [stampEvent now uuid ev] }) := by
  unfold process_event
  dsimp only
  rw [h]
  rfl

/-- Witness for C4 at a concrete input: the empty-field event matches none
of the six default playbooks, is logged, and yields no run. -/
theorem c4_no_match_empty_runs_witness :
    matchingPlaybooks initialState.playbooks (stampEvent "t0" "u0" {}) = [] ∧
    process_event (fun _ _ r => .ok ("", r)) initialState "t0" "u0" {} =
      ([], { initialState with events := initialState.events ++ [stampEvent "t0" "u0" {}] }) :=
  ⟨rfl, c4_no_match_empty_runs (fun _ _ r => .ok ("", r)) initialState "t0" "u0" {} rfl⟩

/-- Claim C3: an action that raises aborts the remaining actions of its
playbook (the result does not depend on them), marks the run `failed` and
appends the synthetic `error` record carrying the exception text; and the
router still produces one run for every matched playbook, whatever the
executor does. -/
theorem c3_action_error_aborts
    (exec : PlaybookAction → Event → PlaybookRun → Except String (String × PlaybookRun))
    (ev : Event) (a : PlaybookAction) (rest : List PlaybookAction)
    (run : PlaybookRun) (e : String) (h : exec a ev run = .error e) :
    runActions exec ev (a :: rest) run =
      { run with status := "failed", actions_taken := run.actions_taken ++ [errorRecord e] } ∧
    ∀ (st : RobustaState) (now uuid : String) (ev2 : Event),
      ((process_event exec st now uuid ev2).1).length =
        (matchingPlaybooks st.playbooks (stampEvent now uuid ev2)).length := by
  constructor
  · unfold runActions
    rw [h]
  · intro st now uuid ev2
    rw [process_event_runs]
    exact List.length_map _ _

/-- Witness for C3 at a concrete input: an always-raising executor. -/
theorem c3_action_error_aborts_witness :
    (fun (_ : PlaybookAction) (_ : Event) (_ : PlaybookRun) =>
        (.error "boom" : Except String (String × PlaybookRun)))
      ⟨"a0", "d0", "notify", none⟩ {} (newRun on_service_down {}) = .error "boom" ∧
    (runActions
        (fun _ _ _ => (.error "boom" : Except String (String × PlaybookRun))) {}
        [⟨"a0", "d0", "notify", none⟩, ⟨"a1", "d1", "recommend", none⟩]
        (newRun on_service_down {}) =
      { newRun on_service_down {} with
        status := "failed"
        actions_taken := (newRun on_service_down {}).actions_taken ++ [errorRecord "boom"] } ∧
    ∀ (st : RobustaState) (now uuid : String) (ev2 : Event),
      ((process_event (fun _ _ _ => (.error "boom" : Except String (String × PlaybookRun)))
          st now uuid ev2).1).length =
        (matchingPlaybooks st.playbooks (stampEvent now uuid ev2)).length) :=
  ⟨rfl, c3_action_error_aborts _ {} ⟨"a0", "d0", "notify", none⟩
    [⟨"a1", "d1", "recommend", none⟩] (newRun on_service_down {}) "boom" rfl⟩

/-- Claim C7: with no raised exception, every metrics key holds its own
query's value — `0.0` for an individually failing query (non-200 or empty
result), the fetched scalar otherwise; a raised exception (source
unavailable) replaces the whole mapping by the randomized snapshot with
liveness `up = 1`. -/
theorem c7_metrics_partial_failure (q1 q2 q3 q4 : QueryOutcome) (r : RandDraws) :
    (q1 ≠ .exn → q2 ≠ .exn → q3 ≠ .exn → q4 ≠ .exn →
      fetch_vm_metrics q1 q2 q3 q4 r =
        { cpu_usage_pct := (queryValue q1).getD 0, memory_mb := (queryValue q2).getD 0,
          scrape_ms := (queryValue q3).getD 0, up := (queryValue q4).getD 0 }) ∧
    ((q1 = .exn ∨ q2 = .exn ∨ q3 = .exn ∨ q4 = .exn) →
      fetch_vm_metrics q1 q2 q3 q4 r =
        { cpu_usage_pct := r.cpu, memory_mb := r.mem, scrape_ms := r.scrape, up := 1 }) := by
  constructor
  · intro h1 h2 h3 h4
    cases q1 <;> cases q2 <;> cases q3 <;> cases q4 <;>
      simp_all [fetch_vm_metrics, runQueries, queryValue]
  · intro h
    cases q1 <;> cases q2 <;> cases q3 <;> cases q4 <;>
      simp_all [fetch_vm_metrics, runQueries, queryValue]

/-- Witness for C7 at concrete inputs: one non-200 query amid successes
keeps the fetched values and zeroes only the failing key; one raising
query replaces everything by the snapshot with `up = 1`. -/
theorem c7_metrics_partial_failure_witness :
    ((.ok 55 : QueryOutcome) ≠ .exn ∧
      fetch_vm_metrics (.ok 55) .non200 (.ok 3) (.ok 1) ⟨9, 8, 7⟩ =
        { cpu_usage_pct := 55, memory_mb := 0, scrape_ms := 3, up := 1 }) ∧
    ((.ok 55 : QueryOutcome) = .exn ∨ (.exn : QueryOutcome) = .exn ∨
        (.ok 3 : QueryOutcome) = .exn ∨ (.ok 1 : QueryOutcome) = .exn) ∧
    fetch_vm_metrics (.ok 55) .exn (.ok 3) (.ok 1) ⟨9, 8, 7⟩ =
      { cpu_usage_pct := 9, memory_mb := 8, scrape_ms := 7, up := 1 } :=
  ⟨⟨by decide,
      (c7_metrics_partial_failure (.ok 55) .non200 (.ok 3) (.ok 1) ⟨9, 8, 7⟩).1
        (by decide) (by decide) (by decide) (by decide)⟩,
    Or.inr (Or.inl rfl),
    (c7_metrics_partial_failure (.ok 55) .exn (.ok 3) (.ok 1) ⟨9, 8, 7⟩).2
      (Or.inr (Or.inl rfl))⟩

/-- Claim C9: two synthetic-log calls for the same service yield the same
nine entries in the same order — identical severity levels, labels and
message texts — the timestamps alone shifting with the call instant. -/
theorem c9_synthetic_logs_idempotent (service : String) (t1 t2 : Int) :
    (synthetic_logs service t1).length = 9 ∧
    (synthetic_logs service t2).length = 9 ∧
    (synthetic_logs service t1).map LogEntry.level =
      (synthetic_logs service t2).map LogEntry.level ∧
    (synthetic_logs service t1).map LogEntry.label_level =
      (synthetic_logs service t2).map LogEntry.label_level ∧
    (synthetic_logs service t1).map LogEntry.label_job =
      (synthetic_logs service t2).map LogEntry.label_job ∧
    (synthetic_logs service t1).map LogEntry.timestamp =
      [t1 - 60, t1 - 50, t1 - 40, t1 - 30, t1 - 20, t1 - 15, t1 - 10, t1 - 5, t1 - 2] ∧
    (synthetic_logs service t2).map LogEntry.timestamp =
      [t2 - 60, t2 - 50, t2 - 40, t2 - 30, t2 - 20, t2 - 15, t2 - 10, t2 - 5, t2 - 2] ∧
    ∃ msgs : List String, msgs.length = 9 ∧
      (synthetic_logs service t1).map LogEntry.line =
        List.zipWith (fun ts m => isoTs ts ++ (" " ++ m))
          ((synthetic_logs service t1).map LogEntry.timestamp) msgs ∧
      (synthetic_logs service t2).map LogEntry.line =
        List.zipWith (fun ts m => isoTs ts ++ (" " ++ m))
          ((synthetic_logs service t2).map LogEntry.timestamp) msgs := by
  refine ⟨rfl, rfl, rfl, rfl, rfl, rfl, rfl,
    ["INFO" ++ (" " ++ ("[" ++ service ++ "] Service started, listening on :8080")),
     "INFO" ++ (" " ++ ("[" ++ service ++ "] Health check passed: GET /health 200 OK")),
     "INFO" ++ (" " ++ ("[" ++ service ++ "] Processed 142 requests in last 60s")),
     "WARN" ++ (" " ++ ("[" ++ service ++ "] High memory usage detected: 85% of 512Mi limit")),
     "WARN" ++ (" " ++ ("[" ++ service ++ "] GC overhead increasing, heap at 430Mi")),
     "ERROR" ++ (" " ++ ("[" ++ service ++ "] Connection timeout to downstream service: deadline exceeded")),
     "ERROR" ++ (" " ++ ("[" ++ service ++ "] OOMKill signal received, container memory exceeded limit")),
     "WARN" ++ (" " ++ ("[" ++ service ++ "] Circuit breaker OPEN for dependency 'postgres'")),
     "ERROR" ++ (" " ++ ("[" ++ service ++ "] Failed health check: GET /health 503 Service Unavailable"))],
    rfl, rfl, rfl⟩

/-- Claim C10: `investigate` is total — on an internal error it returns a
normally-shaped record with status `failed` — and an `investigate` action
treats that as a successful action: the run ends `success` while its
stored investigation is `failed`, the investigation's error description
standing in the run's enrichment as the root cause. -/
theorem c10_failed_investigation_successful_run (err inv_id : String)
    (mRes : Except String VMMetrics) (kRes : Except String K8sDescribe) (ev : Event) :
    (investigate ⟨inv_id, .error err, mRes, kRes⟩ (alert_for_holmes ev)).status = "failed" ∧
    (run_playbook (execute_action ⟨inv_id, .error err, mRes, kRes⟩) on_service_down ev).status
      = "success" ∧
    ∃ inv,
      (run_playbook (execute_action ⟨inv_id, .error err, mRes, kRes⟩) on_service_down ev).investigation
        = some inv ∧
      inv.status = "failed" ∧
      (run_playbook (execute_action ⟨inv_id, .error err, mRes, kRes⟩) on_service_down ev).enrichment.root_cause
        = some inv.root_cause ∧
      inv.root_cause = "Investigation failed: " ++ err :=
  ⟨rfl, rfl, investigate ⟨inv_id, .error err, mRes, kRes⟩ (alert_for_holmes ev),
    rfl, rfl, rfl, rfl⟩

/-- Claim C2: an investigation's status is `complete` iff every evidence
step returned without raising (the classify step is a total function and
always appends once reached, so the three fetches decide the outcome);
the returned record is terminal (`complete` or `failed`, with four steps
logged when complete), and any raising step makes it `failed` with the
error's description surfacing in the root-cause string. -/
theorem c2_investigation_status (ts : HolmesToolset) (alert : HolmesAlert) :
    ((investigate ts alert).status = "complete" ↔
      (∃ l, ts.logs = .ok l) ∧ (∃ m, ts.metrics = .ok m) ∧ (∃ k, ts.k8s = .ok k)) ∧
    ((investigate ts alert).status = "complete" ∨ (investigate ts alert).status = "failed") ∧
    ((investigate ts alert).status = "complete" → (investigate ts alert).steps.length = 4) ∧
    (∀ e, ts.logs = .error e →
      (investigate ts alert).status = "failed" ∧
      (investigate ts alert).root_cause = "Investigation failed: " ++ e) ∧
    (∀ l e, ts.logs = .ok l → ts.metrics = .error e →
      (investigate ts alert).status = "failed" ∧
      (investigate ts alert).root_cause = "Investigation failed: " ++ e) ∧
    (∀ l m e, ts.logs = .ok l → ts.metrics = .ok m → ts.k8s = .error e →
      (investigate ts alert).status = "failed" ∧
      (investigate ts alert).root_cause = "Investigation failed: " ++ e) := by
  obtain ⟨iid, lg, mt, kk⟩ := ts
  cases lg <;> cases mt <;> cases kk <;> simp [investigate]

/-- Witness for C2 at a concrete input: a raising log fetch yields a failed
investigation whose root cause carries the error text. -/
theorem c2_investigation_status_witness :
    (investigate ⟨"i1", .error "connection reset", .ok ⟨40, 100, 5, 1⟩,
        .ok (kubectl_describe "svc" "c1")⟩ {}).status = "failed" ∧
    (investigate ⟨"i1", .error "connection reset", .ok ⟨40, 100, 5, 1⟩,
        .ok (kubectl_describe "svc" "c1")⟩ {}).root_cause =
      "Investigation failed: " ++ "connection reset" :=
  (c2_investigation_status ⟨"i1", .error "connection reset", .ok ⟨40, 100, 5, 1⟩,
      .ok (kubectl_describe "svc" "c1")⟩ {}).2.2.2.1 "connection reset" rfl

/-- Claim C6 (amended): the resource-description adapter is a deterministic
function of the service name; a service whose name contains "memory"
(case-insensitively) is reported with two prior restarts — not one, as
claimed — last container state "OOMKilled" and exactly one OOMKilling
warning event (count 2); every other service reports zero restarts, last
state "Completed" and no warning events. -/
theorem c6_kubectl_describe_by_name (service cluster : String) :
    (strContainsB (lowerStr service) "memory" = true →
      (kubectl_describe service cluster).containers.map
          (fun c => (c.restart_count, c.last_state)) = [(2, "OOMKilled")] ∧
      (kubectl_describe service cluster).events.map
          (fun e => (e.type, e.reason, e.count)) = [("Warning", "OOMKilling", 2)]) ∧
    (strContainsB (lowerStr service) "memory" = false →
      (kubectl_describe service cluster).containers.map
          (fun c => (c.restart_count, c.last_state)) = [(0, "Completed")] ∧
      (kubectl_describe service cluster).events = []) := by
  constructor <;> intro h <;> simp [kubectl_describe, h]

/-- Counterexample for C6 as frozen: for the service "memory-api" the
adapter reports two prior restarts, so the claimed "one prior restart"
is false. -/
theorem c6_one_restart_counterexample :
    (kubectl_describe "memory-api" "prod-1").containers.map ContainerInfo.restart_count = [2] ∧
    (kubectl_describe "memory-api" "prod-1").containers.map ContainerInfo.restart_count ≠ [1] := by
  constructor
  · decide
  · decide

/-- Witness for the amended C6 at concrete inputs on both branches. -/
theorem c6_kubectl_describe_by_name_witness :
    (strContainsB (lowerStr "memory-api") "memory" = true ∧
      (kubectl_describe "memory-api" "c1").containers.map
          (fun c => (c.restart_count, c.last_state)) = [(2, "OOMKilled")] ∧
      (kubectl_describe "memory-api" "c1").events.map
          (fun e => (e.type, e.reason, e.count)) = [("Warning", "OOMKilling", 2)]) ∧
    (strContainsB (lowerStr "checkout") "memory" = false ∧
      (kubectl_describe "checkout" "c1").containers.map
          (fun c => (c.restart_count, c.last_state)) = [(0, "Completed")] ∧
      (kubectl_describe "checkout" "c1").events = []) :=
  ⟨⟨by decide, (c6_kubectl_describe_by_name "memory-api" "c1").1 (by decide)⟩,
    ⟨by decide, (c6_kubectl_describe_by_name "checkout" "c1").2 (by decide)⟩⟩

/-- Claim C1: with memory 470 MB and one restart, rule 1 of the classifier
fires — out-of-memory with confidence `high` — for every log set with no
OOM/KILLED/OOMKILL keyword among the error-like lines, every CPU value
(in particular CPU > 80, where rule 3 would also be eligible), every
liveness value and every last container state: the first matching rule
wins and later rules are not consulted. -/
theorem c1_oom_priority (alert : HolmesAlert) (logs error_logs : List LogEntry)
    (metrics : VMMetrics) (k8s : K8sDescribe) (last_state : String)
    (hmem : metrics.memory_mb = 470)
    (hkw : ∀ l ∈ error_logs, hasAnyKw l.line ["OOM", "KILLED", "OOMKILL"] = false) :
    (analyze alert logs error_logs metrics k8s 1 last_state).confidence = "high" ∧
    (analyze alert logs error_logs metrics k8s 1 last_state).root_cause =
      "OOMKill — `" ++ alert.service.getD "unknown"
        ++ "` exceeded its memory limit (512Mi) and was killed by the kernel. "
        ++ "Evidence: " ++ toString (0 : ℕ) ++ " OOM log entries, "
        ++ toString (1 : ℕ) ++ " pod restart(s), memory at " ++ fmt0 470 ++ "MB." := by
  have hfil : error_logs.filter (fun l => hasAnyKw l.line ["OOM", "KILLED", "OOMKILL"]) = [] :=
    List.filter_eq_nil_iff.mpr (fun a ha => by simp [hkw a ha])
  have h1 : (450 : ℚ) < 470 := by norm_num
  simp [analyze, hfil, hmem, h1]

/-- Witness for C1 at a concrete input with CPU 95 (> 80, rule 3 eligible):
rule 1 still wins. -/
theorem c1_oom_priority_witness :
    ((⟨95, 470, 1, 1⟩ : VMMetrics).memory_mb = 470 ∧
      ∀ l ∈ ([] : List LogEntry), hasAnyKw l.line ["OOM", "KILLED", "OOMKILL"] = false) ∧
    (analyze {} [] [] ⟨95, 470, 1, 1⟩ (kubectl_describe "api" "c1") 1 "Completed").confidence
      = "high" ∧
    (analyze {} [] [] ⟨95, 470, 1, 1⟩ (kubectl_describe "api" "c1") 1 "Completed").root_cause =
      "OOMKill — `" ++ ({} : HolmesAlert).service.getD "unknown"
        ++ "` exceeded its memory limit (512Mi) and was killed by the kernel. "
        ++ "Evidence: " ++ toString (0 : ℕ) ++ " OOM log entries, "
        ++ toString (1 : ℕ) ++ " pod restart(s), memory at " ++ fmt0 470 ++ "MB." :=
  ⟨⟨rfl, by simp⟩,
    c1_oom_priority {} [] [] ⟨95, 470, 1, 1⟩ (kubectl_describe "api" "c1") "Completed"
      rfl (by simp)⟩

/-- Claim C5: an event matching exactly N registered playbooks yields
exactly N run records; under the registry invariant that no two
registered playbooks share an id, the runs reference pairwise distinct
playbook ids, and every run stores the same stamped event (hence the
same event id). -/
theorem c5_one_run_per_match (ts : HolmesToolset) (st : RobustaState) (now uuid : String)
    (ev : Event) (h : (st.playbooks.map Playbook.id).Nodup) :
    ((process_event (execute_action ts) st now uuid ev).1).length =
      (matchingPlaybooks st.playbooks (stampEvent now uuid ev)).length ∧
    ((process_event (execute_action ts) st now uuid ev).1).map PlaybookRun.playbook_id =
      (matchingPlaybooks st.playbooks (stampEvent now uuid ev)).map Playbook.id ∧
    (((process_event (execute_action ts) st now uuid ev).1).map PlaybookRun.playbook_id).Nodup ∧
    ∀ r ∈ (process_event (execute_action ts) st now uuid ev).1,
      r.event = stampEvent now uuid ev := by
  have hruns := process_event_runs (execute_action ts) st now uuid ev
  have hmapid : ((matchingPlaybooks st.playbooks (stampEvent now uuid ev)).map
        (fun pb => run_playbook (execute_action ts) pb (stampEvent now uuid ev))).map
          PlaybookRun.playbook_id
      = (matchingPlaybooks st.playbooks (stampEvent now uuid ev)).map Playbook.id := by
    rw [List.map_map]
    exact List.map_congr_left (fun pb _ => (run_playbook_fields ts pb _).1)
  have hnodup : ((matchingPlaybooks st.playbooks (stampEvent now uuid ev)).map Playbook.id).Nodup :=
    List.Nodup.sublist
      (List.Sublist.map Playbook.id (List.filter_sublist st.playbooks)) h
  refine ⟨?_, ?_, ?_, ?_⟩
  · rw [hruns, List.length_map]
  · rw [hruns, hmapid]
  · rw [hruns, hmapid]
    exact hnodup
  · intro r hr
    rw [hruns] at hr
    obtain ⟨pb, hpb, rfl⟩ := List.mem_map.mp hr
    exact (run_playbook_fields ts pb _).2.2

/-- Witness for C5 at a concrete input: the six default playbooks carry
distinct ids and the scenario event matches one of them. -/
theorem c5_one_run_per_match_witness :
    (initialState.playbooks.map Playbook.id).Nodup ∧
    (((process_event (execute_action syntheticToolset) initialState "t0" "u0" serviceDownEvent).1).length =
      (matchingPlaybooks initialState.playbooks (stampEvent "t0" "u0" serviceDownEvent)).length ∧
    ((process_event (execute_action syntheticToolset) initialState "t0" "u0" serviceDownEvent).1).map
        PlaybookRun.playbook_id =
      (matchingPlaybooks initialState.playbooks (stampEvent "t0" "u0" serviceDownEvent)).map Playbook.id ∧
    (((process_event (execute_action syntheticToolset) initialState "t0" "u0" serviceDownEvent).1).map
        PlaybookRun.playbook_id).Nodup ∧
    ∀ r ∈ (process_event (execute_action syntheticToolset) initialState "t0" "u0" serviceDownEvent).1,
      r.event = stampEvent "t0" "u0" serviceDownEvent) :=
  ⟨by decide,
    c5_one_run_per_match syntheticToolset initialState "t0" "u0" serviceDownEvent (by decide)⟩

/-- Rule-2 shape of the classifier, shared by the C8 scenario: with no
OOM-keyword among the error-like lines, a last container state other
than `OOMKilled`, zero restarts and alert name `ServiceDown`, the
service-unreachable rule fires with confidence `high`, whatever the
metrics hold. -/
theorem analyze_rule2_of (alert : HolmesAlert) (logs error_logs : List LogEntry)
    (metrics : VMMetrics) (k8s : K8sDescribe) (last_state : String)
    (hfil : error_logs.filter (fun l => hasAnyKw l.line ["OOM", "KILLED", "OOMKILL"]) = [])
    (hls : last_state ≠ "OOMKilled")
    (han : alert.alertname.getD (alert.name.getD "UnknownAlert") = "ServiceDown") :
    (analyze alert logs error_logs metrics k8s 0 last_state).confidence = "high" ∧
    (analyze alert logs error_logs metrics k8s 0 last_state).root_cause =
      "`" ++ alert.service.getD "unknown" ++ "` is not responding to health checks (up=0). "
        ++ toString error_logs.length ++ " errors in logs; "
        ++ toString (0 : ℕ) ++ " restarts." := by
  simp [analyze, hfil, hls, han]

/-- Claim C8 (amended): the scenario holds whenever the fetched logs carry
no OOM/KILLED/OOMKILL keyword (e.g. a reachable, clean Loki): the router
matches exactly `on_service_down`, the investigate action completes with
confidence `high` and a root cause containing "not responding to health
checks", the run ends `success` and its enrichment confidence is `high`.
With the synthetic fallback logs the OOM rule fires first instead (see
the counterexample). -/
theorem c8_service_down_scenario (ts : HolmesToolset) (logs : List LogEntry) (m : VMMetrics)
    (now uuid : String)
    (hlogs : ts.logs = .ok logs)
    (hkw : ∀ l ∈ logs, hasAnyKw l.line ["OOM", "KILLED", "OOMKILL"] = false)
    (hm : ts.metrics = .ok m)
    (hk : ts.k8s = .ok (kubectl_describe "checkout" "prod-1")) :
    (matchingPlaybooks initialState.playbooks (stampEvent now uuid serviceDownEvent)).map
        Playbook.name = ["on_service_down"] ∧
    ((process_event (execute_action ts) initialState now uuid serviceDownEvent).1).length = 1 ∧
    ∀ r ∈ (process_event (execute_action ts) initialState now uuid serviceDownEvent).1,
      r.status = "success" ∧
      r.enrichment.confidence = some "high" ∧
      ∃ inv, r.investigation = some inv ∧ inv.status = "complete" ∧
        inv.confidence = "high" ∧
        strContainsB inv.root_cause "not responding to health checks" = true := by
  obtain ⟨iid, lg, mt, kk⟩ := ts
  simp only at hlogs hm hk
  subst hlogs
  subst hm
  subst hk
  have hfil : (logs.filter (fun l => hasAnyKw l.line
        ["ERROR", "FATAL", "EXCEPTION", "CRITICAL", "OOM", "KILLED", "FAIL", "TIMEOUT"])).filter
      (fun l => hasAnyKw l.line ["OOM", "KILLED", "OOMKILL"]) = [] :=
    List.filter_eq_nil_iff.mpr
      (fun a ha => by simp [hkw a (List.mem_of_mem_filter ha)])
  have hrule := analyze_rule2_of
    (alert_for_holmes (stampEvent now uuid serviceDownEvent)) logs
    (logs.filter (fun l => hasAnyKw l.line
      ["ERROR", "FATAL", "EXCEPTION", "CRITICAL", "OOM", "KILLED", "FAIL", "TIMEOUT"]))
    m (kubectl_describe "checkout" "prod-1") "Completed" hfil (by decide) rfl
  have hruns : ((process_event
        (execute_action ⟨iid, .ok logs, .ok m, .ok (kubectl_describe "checkout" "prod-1")⟩)
        initialState now uuid serviceDownEvent).1) =
      [run_playbook (execute_action ⟨iid, .ok logs, .ok m, .ok (kubectl_describe "checkout" "prod-1")⟩)
        on_service_down (stampEvent now uuid serviceDownEvent)] := by
    rw [process_event_runs]
    rfl
  refine ⟨rfl, ?_, ?_⟩
  · rw [hruns]
    rfl
  · intro r hr
    rw [hruns, List.mem_singleton] at hr
    subst hr
    refine ⟨rfl, ?_, investigate ⟨iid, .ok logs, .ok m, .ok (kubectl_describe "checkout" "prod-1")⟩
      (alert_for_holmes (stampEvent now uuid serviceDownEvent)), rfl, rfl, ?_, ?_⟩
    · exact congrArg some hrule.1
    · exact hrule.1
    · show strContainsB (analyze (alert_for_holmes (stampEvent now uuid serviceDownEvent)) logs
        (logs.filter (fun l => hasAnyKw l.line
          ["ERROR", "FATAL", "EXCEPTION", "CRITICAL", "OOM", "KILLED", "FAIL", "TIMEOUT"]))
        m (kubectl_describe "checkout" "prod-1") 0 "Completed").root_cause
        "not responding to health checks" = true
      rw [hrule.2]
      have hbase : strContainsB
          ("`" ++ (alert_for_holmes (stampEvent now uuid serviceDownEvent)).service.getD "unknown"
            ++ "` is not responding to health checks (up=0). ")
          "not responding to health checks" = true := by
        show strContainsB ("`" ++ "checkout" ++ "` is not responding to health checks (up=0). ")
          "not responding to health checks" = true
        decide
      exact strContainsB_append _ _ _ (strContainsB_append _ _ _ (strContainsB_append _ _ _
        (strContainsB_append _ _ _ hbase)))

/-- Witness for the amended C8 at a concrete input: empty fetched logs. -/
theorem c8_service_down_scenario_witness :
    ((⟨"i9", .ok [], .ok ⟨40, 100, 5, 1⟩, .ok (kubectl_describe "checkout" "prod-1")⟩ :
        HolmesToolset).logs = .ok [] ∧
      (∀ l ∈ ([] : List LogEntry), hasAnyKw l.line ["OOM", "KILLED", "OOMKILL"] = false)) ∧
    ((matchingPlaybooks initialState.playbooks (stampEvent "t0" "u0" serviceDownEvent)).map
        Playbook.name = ["on_service_down"] ∧
    ((process_event (execute_action ⟨"i9", .ok [], .ok ⟨40, 100, 5, 1⟩,
        .ok (kubectl_describe "checkout" "prod-1")⟩) initialState "t0" "u0" serviceDownEvent).1).length = 1 ∧
    ∀ r ∈ (process_event (execute_action ⟨"i9", .ok [], .ok ⟨40, 100, 5, 1⟩,
        .ok (kubectl_describe "checkout" "prod-1")⟩) initialState "t0" "u0" serviceDownEvent).1,
      r.status = "success" ∧
      r.enrichment.confidence = some "high" ∧
      ∃ inv, r.investigation = some inv ∧ inv.status = "complete" ∧
        inv.confidence = "high" ∧
        strContainsB inv.root_cause "not responding to health checks" = true) :=
  ⟨⟨rfl, by simp⟩,
    c8_service_down_scenario
      ⟨"i9", .ok [], .ok ⟨40, 100, 5, 1⟩, .ok (kubectl_describe "checkout" "prod-1")⟩
      [] ⟨40, 100, 5, 1⟩ "t0" "u0" rfl (by simp) rfl rfl⟩

set_option maxRecDepth 100000 in
/-- Counterexample for C8 as frozen: in the offline mode the spec itself
prescribes (Loki unreachable, synthetic fallback logs), the OOM rule
fires first for the very same event, so the investigation's root cause
does not contain "not responding to health checks" — although the run
still ends `success` with enrichment confidence `high`. -/
theorem c8_synthetic_logs_counterexample :
    ((process_event (execute_action syntheticToolset) initialState "t0" "u0" serviceDownEvent).1.map
        (fun r => r.investigation.map
          (fun i => strContainsB i.root_cause "not responding to health checks")))
      = [some false] ∧
    ((process_event (execute_action syntheticToolset) initialState "t0" "u0" serviceDownEvent).1.map
        (fun r => (r.status, r.enrichment.confidence))) = [("success", some "high")] := by
  constructor
  · rfl
  · rfl

end Observability
